import Mathlib

/-!
Verification development for the iris build scripts.

This file gives a shallow embedding of the configuration-fallback build
search and the containerized CodeQL database pipeline implemented in
`scripts/build_one.py`, `scripts/build_codeql_dbs.py` and
`scripts/docker_utils.py`, and proves (or refutes) the frozen claims about
them.  Python dictionaries of CSV rows become structures, the toolchain
tables become association lists, filesystem and subprocess behaviour become
explicit environment records, and observable side effects (invoking a build
command, writing a ledger row, creating or removing a container, running a
pipeline stage) are collected in event traces.
-/

set_option maxHeartbeats 2000000
set_option maxRecDepth 4096

namespace Iris

/-! ## Data model: build attempts (build_one.py) -/

/-- One build configuration, mirroring the Python attempt dictionaries of
`build_one.py`: an optional key maps to `none` when the key is absent from
the dict.  `gradlew` carries the integer value stored by the script
(`1`, or `0` for a ledger row with `use_gradlew == "False"`). -/
structure Attempt where
  jdk : Option String
  mvn : Option String
  gradle : Option String
  gradlew : Option Nat
deriving DecidableEq, Repr

/-- The fixed default attempt list `ATTEMPTS` of `build_one.py`, in source
order. -/
def ATTEMPTS : List Attempt := [
  { jdk := some "8", mvn := some "3.5.0", gradle := none, gradlew := none },
  { jdk := some "17", mvn := some "3.5.0", gradle := none, gradlew := none },
  { jdk := some "17", mvn := some "3.9.8", gradle := none, gradlew := none },
  { jdk := some "8", mvn := some "3.9.8", gradle := none, gradlew := none },
  { jdk := some "17", mvn := none, gradle := some "8.9", gradlew := none },
  { jdk := some "8", mvn := none, gradle := some "7.6.4", gradlew := none },
  { jdk := some "8", mvn := none, gradle := some "6.8.2", gradlew := none },
  { jdk := some "8", mvn := none, gradle := none, gradlew := some 1 },
  { jdk := some "17", mvn := none, gradle := none, gradlew := some 1 }]

/-- Number of build-tool selector keys present in an attempt dict
(`mvn`, `gradle`, `gradlew`). -/
def selectorCount (a : Attempt) : Nat :=
  (if a.mvn.isSome then 1 else 0) + (if a.gradle.isSome then 1 else 0) +
    (if a.gradlew.isSome then 1 else 0)

/-! ## Toolchain tables and the host environment -/

/-- Lookup in a JSON table modelled as an association list; mirrors Python
`dict.get(key)` returning `None` when absent. -/
def tableGet (t : List (String × String)) (k : String) : Option String :=
  (t.find? (fun p => p.1 == k)).map (fun p => p.2)

/-- Python truthiness of an optional string (`if not java_path: ...`):
`None` and the empty string are falsy. -/
def pyFalsy (o : Option String) : Bool :=
  match o with
  | none => true
  | some s => s == ""

/-- Path join as used via `Path(p, "bin", "java")` in the source. -/
def pathJoin (a b : String) : String := a ++ "/" ++ b

/-- The ambient host state seen by `build_one.py`: the loaded
`ALLVERSIONS` tables, the filesystem, the project checkout, and the exit
status of whichever build subprocess an attempt runs. -/
structure HostEnv where
  jdks : List (String × String)
  mvns : List (String × String)
  gradles : List (String × String)
  pathExists : String → Bool
  gradlewScriptExists : Bool
  chmodOk : Bool
  buildOk : Attempt → Bool

/-! ## Observable events of a build attempt -/

/-- Observable side effects of the build-attempt code paths. -/
inductive Ev where
  | tried (a : Attempt)
  | invokedBuild (tool : String)
  | markerSaved
  | localRow (success : Bool)
  | sandboxCreated
  | sandboxExec
  | sandboxRemoveAttempted
deriving DecidableEq, Repr

/-- Fine-grained result of one host build function, one constructor per
distinct return/print site of the source. -/
inductive HostRes where
  | notInTable
  | notOnDisk
  | binMissing
  | jdkNotFound
  | noGradlewScript
  | chmodFailed
  | builtOk
  | buildFailed
  | keyError
  | valueError
deriving DecidableEq, Repr

/-- The tri-state result of `build_project_with_attempt` (string constants
`NEWLY_BUILT` / `ALREADY_BUILT` / `FAILED` in the source), plus `pyError`
for an uncaught Python exception. -/
inductive BRes where
  | newlyBuilt
  | alreadyBuilt
  | failed
  | pyError
deriving DecidableEq, Repr

/-- Collapse a fine-grained host result to the source's return constant. -/
def toBRes : HostRes → BRes
  | .builtOk => .newlyBuilt
  | .keyError => .pyError
  | .valueError => .pyError
  | _ => .failed

/-- `build_with_maven` of `build_one.py`: table lookups, the three
validation stages (available installations, filesystem paths, binaries),
then the Maven subprocess.  Success writes the per-project build-info
marker (`save_build_info`). -/
def build_with_maven (env : HostEnv) (a : Attempt) : HostRes × List Ev :=
  match a.jdk, a.mvn with
  | some j, some m =>
    let javaPath := tableGet env.jdks j
    let mavenPath := tableGet env.mvns m
    if pyFalsy javaPath || pyFalsy mavenPath then (.notInTable, [])
    else
      match javaPath, mavenPath with
      | some jp, some mp =>
        if !env.pathExists jp || !env.pathExists mp then (.notOnDisk, [])
        else if !env.pathExists (pathJoin jp "bin/java") ||
            !env.pathExists (pathJoin mp "bin/mvn") then (.binMissing, [])
        else if env.buildOk a then (.builtOk, [.invokedBuild "mvn", .markerSaved])
        else (.buildFailed, [.invokedBuild "mvn"])
      | _, _ => (.notInTable, [])
  | _, _ => (.keyError, [])

/-- `build_with_gradle` of `build_one.py`.  Note that unlike the Maven
path, the source has no check that the `bin` executables exist. -/
def build_with_gradle (env : HostEnv) (a : Attempt) : HostRes × List Ev :=
  match a.jdk, a.gradle with
  | some j, some g =>
    let javaPath := tableGet env.jdks j
    let gradlePath := tableGet env.gradles g
    if pyFalsy javaPath || pyFalsy gradlePath then (.notInTable, [])
    else
      match javaPath, gradlePath with
      | some jp, some gp =>
        if !env.pathExists jp || !env.pathExists gp then (.notOnDisk, [])
        else if env.buildOk a then (.builtOk, [.invokedBuild "gradle", .markerSaved])
        else (.buildFailed, [.invokedBuild "gradle"])
      | _, _ => (.notInTable, [])
  | _, _ => (.keyError, [])

/-- `build_with_gradlew` of `build_one.py`: gradlew script presence, chmod,
then a single combined JDK check (`not java_path or not exists`). -/
def build_with_gradlew (env : HostEnv) (a : Attempt) : HostRes × List Ev :=
  match a.jdk with
  | some j =>
    if !env.gradlewScriptExists then (.noGradlewScript, [])
    else if !env.chmodOk then (.chmodFailed, [])
    else
      match tableGet env.jdks j with
      | none => (.jdkNotFound, [])
      | some jp =>
        if jp == "" || !env.pathExists jp then (.jdkNotFound, [])
        else if env.buildOk a then (.builtOk, [.invokedBuild "gradlew", .markerSaved])
        else (.buildFailed, [.invokedBuild "gradlew"])
  | none => (.keyError, [])

/-- `build_project_with_attempt`: the idempotency short-circuit on the
per-project marker (`is_built`), then dispatch on the attempt keys in
source order (`mvn`, `gradle`, `gradlew`), raising `ValueError` otherwise.
Returns the result, the new marker state, and the events. -/
def build_project_with_attempt (env : HostEnv) (marker : Bool) (a : Attempt) :
    BRes × Bool × List Ev :=
  if marker then (.alreadyBuilt, marker, [])
  else
    let r :=
      if a.mvn.isSome then build_with_maven env a
      else if a.gradle.isSome then build_with_gradle env a
      else if a.gradlew.isSome then build_with_gradlew env a
      else (.valueError, [])
    (toBRes r.1, decide (toBRes r.1 = .newlyBuilt), r.2)

/-- Result of `try_build_with_attempt`: a boolean, or a propagated Python
exception. -/
inductive TRes where
  | ok (b : Bool)
  | raised
deriving DecidableEq, Repr

/-- `try_build_with_attempt`: runs one attempt through
`build_project_with_attempt` and records a success or failure row in the
local ledger CSV (`save_local_build_result`) before returning. -/
def try_build_with_attempt (env : HostEnv) (marker : Bool) (a : Attempt) :
    TRes × Bool × List Ev :=
  let r := build_project_with_attempt env marker a
  match r.1 with
  | .newlyBuilt => (.ok true, r.2.1, r.2.2 ++ [.localRow true])
  | .alreadyBuilt => (.ok true, r.2.1, r.2.2)
  | .failed => (.ok false, r.2.1, r.2.2 ++ [.localRow false])
  | .pyError => (.raised, r.2.1, r.2.2)

/-! ## Ledger rows of build_one.py (`get_build_info_from_csv`) -/

/-- One row of `build_info_local.csv` / `build_info.csv` as read by
`csv.DictReader` in `build_one.py` (all columns are strings). -/
structure CsvRow where
  project_slug : String
  status : String
  jdk_version : String
  mvn_version : String
  gradle_version : String
  use_gradlew : String
deriving DecidableEq, Repr

/-- Convert a CSV row into the `specific_attempt` dict built by
`get_build_info_from_csv`: a column contributes a key unless it is
`"n/a"` or empty; `use_gradlew` contributes whenever it is not `"n/a"`,
with value `1` exactly for `"True"`. -/
def rowToAttempt (row : CsvRow) : Attempt :=
  { jdk := if row.jdk_version == "n/a" || row.jdk_version == "" then none
      else some row.jdk_version,
    mvn := if row.mvn_version == "n/a" || row.mvn_version == "" then none
      else some row.mvn_version,
    gradle := if row.gradle_version == "n/a" || row.gradle_version == "" then none
      else some row.gradle_version,
    gradlew := if row.use_gradlew == "n/a" then none
      else if row.use_gradlew == "True" then some 1 else some 0 }

/-- The final check of `get_build_info_from_csv` before returning a
configuration: a JDK and at least one build tool key. -/
def attemptWellFormed (a : Attempt) : Bool :=
  a.jdk.isSome && (a.mvn.isSome || a.gradle.isSome || a.gradlew.isSome)

/-- `get_build_info_from_csv`: scan the rows in order for the first
`status == "success"` row of the project that yields a well-formed
configuration; rows failing the check are skipped, not an error. -/
def get_build_info_from_csv (slug : String) : List CsvRow → Option Attempt
  | [] => none
  | row :: rest =>
    if row.project_slug == slug && row.status == "success" then
      let sa := rowToAttempt row
      if attemptWellFormed sa then some sa
      else get_build_info_from_csv slug rest
    else get_build_info_from_csv slug rest

/-- The per-tool validation step of `validate_and_create_custom_attempt`:
a falsy argument (absent or empty) contributes no key, a truthy argument
must be present in the version table (`sys.exit` is modelled as
`Except.error`). -/
def validateTool (table : List (String × String)) (v : Option String) :
    Except Unit (Option String) :=
  match v with
  | some s =>
    if s == "" then .ok none
    else if (tableGet table s).isNone then .error () else .ok (some s)
  | none => .ok none

/-- `validate_and_create_custom_attempt`: validate the user-supplied
versions, build the custom attempt dict, and require exactly one
build-tool selector. -/
def validate_and_create_custom_attempt (env : HostEnv) (jdk mvn gradle : Option String)
    (gradlew : Bool) : Except Unit Attempt :=
  match jdk with
  | none => .error ()
  | some j =>
    if j == "" then .error ()
    else if (tableGet env.jdks j).isNone then .error ()
    else
      match validateTool env.mvns mvn with
      | .error e => .error e
      | .ok mv =>
        match validateTool env.gradles gradle with
        | .error e => .error e
        | .ok gr =>
          let a : Attempt := ⟨some j, mv, gr, if gradlew then some 1 else none⟩
          if selectorCount a == 0 then .error ()
          else if 1 < selectorCount a then .error ()
          else .ok a

/-! ## Containerized build attempt (`build_inside_container`) -/

/-- Outcome of `exec_in_container` for the containerized build command. -/
inductive ExecOut where
  | raises
  | exits (code : Nat)
deriving DecidableEq, Repr

/-- The docker-side environment of one `build_inside_container` call. -/
structure CEnv where
  imageAvailable : Bool
  startRaises : Bool
  execResult : ExecOut
  removeRaises : Bool

/-- Python `try/finally` semantics: the `finally` block always runs; if it
raises, its exception replaces the body's result. -/
def pyFinally {E A : Type} (body : Except E A) (finB : Except E Unit) : Except E A :=
  match finB with
  | .error e => .error e
  | .ok _ => body

/-- Python `try: ... except Exception: pass` around a single statement. -/
def pySwallow {E : Type} (_x : Except E Unit) : Except E Unit := .ok ()

/-- The `container.remove(force=True)` call, which may itself fail. -/
def containerRemoveStep {E : Type} (e : E) (removeRaises : Bool) : Except E Unit :=
  if removeRaises then .error e else .ok ()

/-- The per-tool shell command of `build_inside_container`, chosen by key
presence in source order; `none` models the `else: return False` branch. -/
def containerBuildCmd (a : Attempt) : Option String :=
  if a.mvn.isSome then some "mvn -B -e -U -DskipTests clean package"
  else if a.gradle.isSome then some "gradle build --parallel"
  else if a.gradlew.isSome then
    some "chmod +x ./gradlew && ./gradlew --no-daemon -S -Dorg.gradle.dependency.verification=off clean"
  else none

/-- `build_inside_container` of `build_one.py`: ensure the image, create
and start a container, run the tool command, return `code == 0`; the
`finally` block removes the container and swallows removal failures.  Note
the function neither consults the idempotency marker nor writes any ledger
record. -/
def build_inside_container (cenv : CEnv) (a : Attempt) : Except Unit Bool × List Ev :=
  if !cenv.imageAvailable then (.error (), [])
  else
    let body : Except Unit Bool × List Ev :=
      if cenv.startRaises then (.error (), [])
      else
        match containerBuildCmd a with
        | none => (.ok false, [])
        | some _ =>
          match cenv.execResult with
          | .raises => (.error (), [.sandboxExec])
          | .exits c => (.ok (c == 0), [.sandboxExec])
    (pyFinally body.1 (pySwallow (containerRemoveStep () cenv.removeRaises)),
      .sandboxCreated :: body.2 ++ [.sandboxRemoveAttempted])

/-! ## The candidate search (`build_project`) -/

/-- One candidate dispatch of `build_project`: in container mode call
`build_inside_container` (no marker read, no marker write), otherwise
`try_build_with_attempt`.  The `tried` event records the dispatch. -/
def execCandidate (env : HostEnv) (cenv : CEnv) (marker : Bool) (useContainer : Bool)
    (a : Attempt) : TRes × Bool × List Ev :=
  if useContainer then
    match build_inside_container cenv a with
    | (.ok b, evs) => (.ok b, marker, .tried a :: evs)
    | (.error _, evs) => (.raised, marker, .tried a :: evs)
  else
    let r := try_build_with_attempt env marker a
    (r.1, r.2.1, .tried a :: r.2.2)

/-- The `for attempt in ATTEMPTS` loop of `build_project`: stop at the
first success, propagate exceptions, otherwise fall through and return
`False`. -/
def loopAttempts (env : HostEnv) (cenv : CEnv) (marker : Bool) (useContainer : Bool) :
    List Attempt → TRes × Bool × List Ev
  | [] => (.ok false, marker, [])
  | a :: rest =>
    match execCandidate env cenv marker useContainer a with
    | (.ok true, m, evs) => (.ok true, m, evs)
    | (.ok false, m, evs) =>
      let r := loopAttempts env cenv m useContainer rest
      (r.1, r.2.1, evs ++ r.2.2)
    | (.raised, m, evs) => (.raised, m, evs)

/-- The `if local_build_info and (...)` pattern: an absent ledger
configuration is simply not attempted. -/
def tryOpt (env : HostEnv) (cenv : CEnv) (marker : Bool) (useContainer : Bool) :
    Option Attempt → TRes × Bool × List Ev
  | none => (.ok false, marker, [])
  | some a => execCandidate env cenv marker useContainer a

/-- The non-custom phase of `build_project`: try the local ledger
configuration, then the global one, then the fixed `ATTEMPTS` list,
stopping at the first success and propagating exceptions. -/
def searchLedgerThenDefaults (env : HostEnv) (cenv : CEnv) (marker : Bool)
    (useContainer : Bool) (o1 o2 : Option Attempt) : TRes × Bool × List Ev :=
  match tryOpt env cenv marker useContainer o1 with
  | (.ok true, m1, e1) => (.ok true, m1, e1)
  | (.raised, m1, e1) => (.raised, m1, e1)
  | (.ok false, m1, e1) =>
    match tryOpt env cenv m1 useContainer o2 with
    | (.ok true, m2, e2) => (.ok true, m2, e1 ++ e2)
    | (.raised, m2, e2) => (.raised, m2, e1 ++ e2)
    | (.ok false, m2, e2) =>
      let r := loopAttempts env cenv m2 useContainer ATTEMPTS
      (r.1, r.2.1, e1 ++ e2 ++ r.2.2)

/-- `build_project` of `build_one.py`: a supplied custom attempt is tried
alone and never falls through; otherwise (unless `try_all`) the local
ledger configuration, then the global ledger configuration, then the fixed
`ATTEMPTS` list, returning `False` only after all of them failed. -/
def build_project (env : HostEnv) (cenv : CEnv) (localRows globalRows : List CsvRow)
    (slug : String) (marker : Bool) (try_all : Bool) (custom : Option Attempt)
    (useContainer : Bool) : TRes × Bool × List Ev :=
  match custom with
  | some c => execCandidate env cenv marker useContainer c
  | none =>
    if try_all then loopAttempts env cenv marker useContainer ATTEMPTS
    else
      searchLedgerThenDefaults env cenv marker useContainer
        (get_build_info_from_csv slug localRows) (get_build_info_from_csv slug globalRows)

/-- Candidates dispatched during a run, in order. -/
def triedList (evs : List Ev) : List Attempt :=
  evs.filterMap (fun e => match e with | .tried a => some a | _ => none)

/-- Does an event write to the result ledger (`save_local_build_result` or
the `save_build_info` marker)? -/
def isLedgerEv : Ev → Bool
  | .localRow _ => true
  | .markerSaved => true
  | _ => false

/-! ## The merged ledger of build_codeql_dbs.py (`load_build_info`) -/

/-- One row of a build-info CSV as read in `build_codeql_dbs.py`.  The
`status` column is optional: `row.get("status", "success")` defaults a
missing column to `"success"`. -/
structure LRow where
  project_slug : String
  status : Option String
  jdk_version : String
  mvn_version : String
  gradle_version : String
  use_gradlew : String
deriving DecidableEq, Repr

/-- The success filter applied to every ledger row:
`row.get("status", "success") == "success"`. -/
def rowSuccess (r : LRow) : Bool := r.status.getD "success" == "success"

/-- Python dict assignment `d[k] = v`: replace in place if the key exists,
else append. -/
def dictInsert (k : String) (v : LRow) : List (String × LRow) → List (String × LRow)
  | [] => [(k, v)]
  | p :: rest => if p.1 == k then (k, v) :: rest else p :: dictInsert k v rest

/-- Python `d.get(k)` over the insertion-ordered dict. -/
def dictLookup : List (String × LRow) → String → Option LRow
  | [], _ => none
  | p :: rest, k => if p.1 == k then some p.2 else dictLookup rest k

/-- Python `k in d`. -/
def dictHasKey (d : List (String × LRow)) (k : String) : Bool :=
  (dictLookup d k).isSome

/-- The local loop of `load_build_info`: keep success rows, keyed by
project slug, later rows overwriting earlier ones. -/
def locFold (rows : List LRow) (d : List (String × LRow)) : List (String × LRow) :=
  rows.foldl (fun d r => if rowSuccess r then dictInsert r.project_slug r d else d) d

/-- The global loop of `load_build_info`: skip non-success rows and rows
whose slug is already present. -/
def globFold (rows : List LRow) (d : List (String × LRow)) : List (String × LRow) :=
  rows.foldl
    (fun d r =>
      if !rowSuccess r then d
      else if dictHasKey d r.project_slug then d
      else d ++ [(r.project_slug, r)])
    d

/-- `load_build_info`: merge the local and global ledgers with local
precedence and return `list(build_info.values())`. -/
def load_build_info (localRows globalRows : List LRow) : List LRow :=
  (globFold globalRows (locFold localRows [])).map (fun p => p.2)

/-- The per-project lookup performed on the merged list in `main`
(`next((p for p in projects if p['project_slug'] == slug), None)`). -/
def lookupMerged (localRows globalRows : List LRow) (slug : String) : Option LRow :=
  (load_build_info localRows globalRows).find? (fun r => r.project_slug == slug)

/-- Normalize a row's optional status to the value the code actually
compares: `status.getD "success"`. -/
def normStatus (r : LRow) : LRow := { r with status := some (r.status.getD "success") }

/-! ## The containerized CodeQL pipeline (`create_codeql_database_in_container`) -/

/-- The structured git operations of the fetch shell command. -/
inductive GitStep where
  | rmRfRepo
  | mkdirRepo
  | cdRepo
  | gitInit
  | remoteAddOrigin (url : String)
  | shallowFetch (refspec : String)
  | resetHardFetchHead
deriving DecidableEq, Repr

/-- The quoted branch-tip refspec of the second fetch. -/
def branchRefspec : String := "\x27+refs/heads/*:refs/remotes/origin/*\x27"

/-- Shell rendering of one git step, matching the source f-string. -/
def renderGitStep : GitStep → String
  | .rmRfRepo => "rm -rf repo"
  | .mkdirRepo => "mkdir -p repo"
  | .cdRepo => "cd repo"
  | .gitInit => "git init"
  | .remoteAddOrigin url => "git remote add origin \x27" ++ url ++ "\x27"
  | .shallowFetch r => "git fetch --no-tags --depth 1 origin " ++ r
  | .resetHardFetchHead => "git reset --hard FETCH_HEAD"

/-- The git operations of `fetch_cmd`, in source order: re-initialize a
fresh workspace, shallow-fetch the pinned commit, hard-reset to
`FETCH_HEAD`, then shallow-fetch all branch tips. -/
def fetchSteps (url commit : String) : List GitStep :=
  [.rmRfRepo, .mkdirRepo, .cdRepo, .gitInit, .remoteAddOrigin url,
    .shallowFetch commit, .resetHardFetchHead, .shallowFetch branchRefspec]

/-- The `fetch_cmd` shell string built in the source. -/
def fetchCmd (url commit : String) : String :=
  String.intercalate " && " ((fetchSteps url commit).map renderGitStep)

/-- The CodeQL database creation command inside the container, with the
optional per-project custom build command. -/
def codeqlCreateCmd (slug : String) (custom : Option String) : String :=
  let base := "/codeql/codeql database create /out/" ++ slug ++
    "-docker --source-root /workspace/repo --language java --overwrite"
  match custom with
  | some c => base ++ " --command \"" ++ c ++ "\""
  | none => base

/-- Pipeline stages whose commands run through `exec_in_container`. -/
inductive Stage where
  | mkdirOut
  | fetch
  | patch
  | build
deriving DecidableEq, Repr

/-- Observable pipeline events, in chronological trace order. -/
inductive PEv where
  | created
  | started
  | codeqlCopied
  | exec (s : Stage) (cmd : String)
  | patchesCopied
  | extracted
  | removeAttempted
deriving DecidableEq, Repr

/-- Failure classification of a pipeline run, one constructor per raise
site of the source. -/
inductive PErr where
  | imageUnavailable
  | startFailed
  | projectNotFound
  | fetchFailed
  | patchFailed
  | buildFailed
  | extractFailed
deriving DecidableEq, Repr

/-- The environment of one pipeline run: docker availability, the project
registry lookup, each stage's exit code, the presence of a patch file and
a custom build command, and whether artifact extraction or container
removal raises. -/
structure PEnv where
  imageAvailable : Bool
  startRaises : Bool
  repoInfo : Option (String × String)
  fetchExit : Nat
  patchFileOnHost : Bool
  patchExit : Nat
  customCmd : Option String
  buildExit : Nat
  extractRaises : Bool
  removeRaises : Bool

/-- `create_codeql_database_in_container` of `build_codeql_dbs.py`: create
and start the project container, copy the CodeQL CLI, look up the pinned
repository revision, then run the fixed fetch / patch / build / extract
sequence, each non-zero stage aborting the run; the `finally` block
removes the container and swallows removal failures. -/
def create_codeql_database_in_container (penv : PEnv) (slug : String) :
    Except PErr Unit × List PEv :=
  if !penv.imageAvailable then (.error .imageUnavailable, [])
  else
    let body : Except PErr Unit × List PEv :=
      if penv.startRaises then (.error .startFailed, [])
      else
        let pre : List PEv := [.started, .codeqlCopied, .exec .mkdirOut "mkdir -p /out"]
        match penv.repoInfo with
        | none => (.error .projectNotFound, pre)
        | some (url, commit) =>
          let fev : PEv := .exec .fetch (fetchCmd url commit)
          if penv.fetchExit != 0 then (.error .fetchFailed, pre ++ [fev])
          else
            let patchEvs : List PEv :=
              if penv.patchFileOnHost then
                [.patchesCopied, .exec .patch ("git apply /patches/" ++ slug ++ ".patch")]
              else []
            if penv.patchFileOnHost && penv.patchExit != 0 then
              (.error .patchFailed, pre ++ [fev] ++ patchEvs)
            else
              let bev : PEv := .exec .build (codeqlCreateCmd slug penv.customCmd)
              if penv.buildExit != 0 then
                (.error .buildFailed, pre ++ [fev] ++ patchEvs ++ [bev])
              else
                ((if penv.extractRaises then .error .extractFailed else .ok ()),
                  pre ++ [fev] ++ patchEvs ++ [bev, .extracted])
    (pyFinally body.1 (pySwallow (containerRemoveStep PErr.extractFailed penv.removeRaises)),
      .created :: body.2 ++ [.removeAttempted])

/-- Did a command of the given stage run? -/
def hasStage (evs : List PEv) (s : Stage) : Bool :=
  evs.any (fun e => match e with | .exec t _ => t == s | _ => false)

/-- Trace position of the first command of the given stage. -/
def stageIdx (evs : List PEv) (s : Stage) : Nat :=
  evs.findIdx (fun e => match e with | .exec t _ => t == s | _ => false)

/-- Trace position of the first occurrence of a given event. -/
def evIdx (evs : List PEv) (x : PEv) : Nat :=
  evs.findIdx (fun e => e == x)

/-- Is a git step one of the two shallow fetches? -/
def isShallowFetchStep : GitStep → Bool
  | .shallowFetch _ => true
  | _ => false

/-! ## Spec-side definitions used for refinement comparison -/

/-- Stated by the spec (section 4.1): a toolchain resolution fails when the
symbolic version is absent from the table, when the table entry points to
a path that does not exist on disk, or when the expected executable under
that path (`binRel`, e.g. `"bin/java"`) is absent. -/
def specToolMissing (env : HostEnv) (table : List (String × String)) (version : String)
    (binRel : String) : Bool :=
  match tableGet table version with
  | none => true
  | some p => !env.pathExists p || !env.pathExists (pathJoin p binRel)

/-- Stated by the spec: resolution of every toolchain referenced by a
candidate, with the three failure causes of section 4.1. -/
def specToolchainMissing (env : HostEnv) (a : Attempt) : Bool :=
  (match a.jdk with
    | some j => specToolMissing env env.jdks j "bin/java"
    | none => true) ||
  (match a.mvn with
    | some m => specToolMissing env env.mvns m "bin/mvn"
    | none => false) ||
  (match a.gradle with
    | some g => specToolMissing env env.gradles g "bin/gradle"
    | none => false)

/-- The first two failure causes only (version absent from the table, or
install path absent from disk) for one tool. -/
def specToolMissing12 (env : HostEnv) (table : List (String × String))
    (version : String) : Bool :=
  match tableGet table version with
  | none => true
  | some p => !env.pathExists p

/-- Pre-invocation host results that report a failed toolchain
resolution. -/
def resolutionFailure : HostRes → Bool
  | .notInTable => true
  | .notOnDisk => true
  | .binMissing => true
  | .jdkNotFound => true
  | _ => false

/-! ## Concrete fixtures used by witnesses and counterexamples -/

/-- A Maven attempt with JDK 17, as produced by `--jdk 17 --mvn 3.9.8`. -/
def mvnAttempt : Attempt := ⟨some "17", some "3.9.8", none, none⟩

/-- A host environment with no toolchains installed and every build
failing. -/
def envEmpty : HostEnv :=
  ⟨[], [], [], fun _ => false, false, true, fun _ => false⟩

/-- A host environment with one JDK, Maven and Gradle version fully
installed, but every build subprocess exiting non-zero. -/
def envInstalled : HostEnv :=
  ⟨[("17", "/jdk17")], [("3.9.8", "/mvn")], [("8.9", "/gradle")],
    fun _ => true, true, true, fun _ => false⟩

/-- A host environment where the JDK and Maven installs are complete, the
Gradle install root exists, but the `bin/gradle` executable is absent. -/
def envGradleNoBin : HostEnv :=
  ⟨[("17", "/j")], [("3.9.8", "/m")], [("8.9", "/g")],
    fun p => p == "/j" || p == "/m" || p == "/g" ||
      p == "/j/bin/java" || p == "/m/bin/mvn",
    true, true, fun _ => false⟩

/-- A docker environment where the image is available, the container
starts, the build command exits zero and removal succeeds. -/
def cenvOk : CEnv := ⟨true, false, .exits 0, false⟩

/-- A host environment with one JDK, Maven and Gradle version fully
installed and every build subprocess exiting zero. -/
def envBuildsOk : HostEnv :=
  ⟨[("17", "/jdk17")], [("3.9.8", "/mvn")], [("8.9", "/gradle")],
    fun _ => true, true, true, fun _ => true⟩

/-- A pipeline environment where every stage succeeds and a patch file
exists. -/
def penvAllOk : PEnv :=
  ⟨true, false, some ("https://host/repo.git", "abc123"), 0, true, 0, none, 0, false, false⟩

/-- A pipeline environment where the fetch stage exits non-zero. -/
def penvFetchFail : PEnv :=
  ⟨true, false, some ("https://host/repo.git", "abc123"), 1, false, 0, none, 0, false, false⟩

/-- Decidable equality for `Except`, used to evaluate the models on
concrete inputs. -/
instance {E A : Type} [DecidableEq E] [DecidableEq A] : DecidableEq (Except E A) :=
  fun x y =>
    match x, y with
    | .ok a, .ok b => decidable_of_iff (a = b) (by simp)
    | .ok _, .error _ => isFalse (by simp)
    | .error _, .ok _ => isFalse (by simp)
    | .error a, .error b => decidable_of_iff (a = b) (by simp)

/-- The last success row of a ledger for a given slug (the row a Python
dict holds after the local loop, since later assignments overwrite). -/
def lastSuccess (k : String) : List LRow → Option LRow
  | [] => none
  | r :: rest =>
    match lastSuccess k rest with
    | some x => some x
    | none => if rowSuccess r && r.project_slug == k then some r else none

/-- The first success row of a ledger for a given slug (what the global
loop inserts for a fresh slug, since later rows are skipped). -/
def firstSuccess (k : String) : List LRow → Option LRow
  | [] => none
  | r :: rest =>
    if rowSuccess r && r.project_slug == k then some r else firstSuccess k rest

/-- Well-formedness of the slug-keyed dict: every value is stored under
its own project slug. -/
def dictWF (d : List (String × LRow)) : Prop :=
  ∀ p ∈ d, p.2.project_slug = p.1

/-- Value transformation of the dict by `normStatus`. -/
def dmap (d : List (String × LRow)) : List (String × LRow) :=
  d.map (fun p => (p.1, normStatus p.2))

/-!
# Theorems

Helper lemmas first, then one theorem per claim (with its witness or
counterexample).
-/

/-! ## Ledger dict lemmas -/

theorem dictLookup_insert_self (k : String) (v : LRow) (d : List (String × LRow)) :
    dictLookup (dictInsert k v d) k = some v := by
  induction d with
  | nil => simp [dictInsert, dictLookup]
  | cons p rest ih =>
    by_cases h : p.1 = k
    · simp [dictInsert, dictLookup, h]
    · simp [dictInsert, dictLookup, h, ih]

theorem dictLookup_insert_ne (k k' : String) (v : LRow) (d : List (String × LRow))
    (h : k' ≠ k) : dictLookup (dictInsert k v d) k' = dictLookup d k' := by
  induction d with
  | nil => simp [dictInsert, dictLookup, Ne.symm h]
  | cons p rest ih =>
    by_cases hp : p.1 = k
    · subst hp
      simp [dictInsert, dictLookup, Ne.symm h, h]
    · by_cases hp' : p.1 = k'
      · simp [dictInsert, dictLookup, hp, hp', h]
      · simp [dictInsert, dictLookup, hp, hp', h, ih]

theorem dictLookup_append (d₁ d₂ : List (String × LRow)) (k : String) :
    dictLookup (d₁ ++ d₂) k =
      match dictLookup d₁ k with
      | some v => some v
      | none => dictLookup d₂ k := by
  induction d₁ with
  | nil => simp [dictLookup]
  | cons p rest ih =>
    by_cases hp : p.1 = k
    · simp [dictLookup, hp]
    · simp [dictLookup, hp, ih]

theorem locFold_cons (r : LRow) (rows : List LRow) (d : List (String × LRow)) :
    locFold (r :: rows) d =
      locFold rows (if rowSuccess r then dictInsert r.project_slug r d else d) := by
  simp [locFold]

theorem locFold_lookup (rows : List LRow) (d : List (String × LRow)) (k : String) :
    dictLookup (locFold rows d) k =
      match lastSuccess k rows with
      | some r => some r
      | none => dictLookup d k := by
  induction rows generalizing d with
  | nil => simp [locFold, lastSuccess]
  | cons r rest ih =>
    rw [locFold_cons, ih]
    rcases h : lastSuccess k rest with _ | x
    · simp only [lastSuccess, h]
      by_cases hs : rowSuccess r
      · by_cases hk : r.project_slug = k
        · subst hk
          simp [hs, dictLookup_insert_self]
        · simp [hs, hk, dictLookup_insert_ne _ _ _ _ (Ne.symm hk)]
      · simp [hs]
    · simp [lastSuccess, h]

theorem globFold_cons (r : LRow) (rows : List LRow) (d : List (String × LRow)) :
    globFold (r :: rows) d =
      globFold rows
        (if !rowSuccess r then d
         else if dictHasKey d r.project_slug then d
         else d ++ [(r.project_slug, r)]) := by
  simp [globFold]

theorem globFold_lookup_some (rows : List LRow) (d : List (String × LRow)) (k : String)
    (v : LRow) (h : dictLookup d k = some v) :
    dictLookup (globFold rows d) k = some v := by
  induction rows generalizing d with
  | nil => simpa [globFold] using h
  | cons r rest ih =>
    rw [globFold_cons]
    by_cases hs : rowSuccess r
    · by_cases hk : dictHasKey d r.project_slug
      · simp only [hs, hk, Bool.not_true, Bool.false_eq_true, if_false, if_true]
        exact ih d h
      · simp only [hs, hk, Bool.not_true, Bool.false_eq_true, if_false]
        refine ih _ ?_
        rw [dictLookup_append, h]
    · simp only [hs, Bool.not_false, if_true]
      exact ih d h

theorem globFold_lookup_none (rows : List LRow) (d : List (String × LRow)) (k : String)
    (h : dictLookup d k = none) :
    dictLookup (globFold rows d) k = firstSuccess k rows := by
  induction rows generalizing d with
  | nil => simpa [globFold, firstSuccess] using h
  | cons r rest ih =>
    rw [globFold_cons]
    by_cases hs : rowSuccess r
    · by_cases hk : r.project_slug = k
      · subst hk
        have hnk : dictHasKey d r.project_slug = false := by
          rw [dictHasKey, h]; rfl
        simp only [hs, hnk, Bool.not_true, Bool.false_eq_true, if_false]
        have hsome : dictLookup (d ++ [(r.project_slug, r)]) r.project_slug = some r := by
          rw [dictLookup_append, h]
          simp [dictLookup]
        rw [globFold_lookup_some rest _ _ _ hsome]
        simp [firstSuccess, hs]
      · have hnone : dictLookup
            (if !rowSuccess r then d
             else if dictHasKey d r.project_slug then d
             else d ++ [(r.project_slug, r)]) k = none := by
          by_cases hd : dictHasKey d r.project_slug
          · simp [hs, hd, h]
          · simp only [hs, hd, Bool.not_true, Bool.false_eq_true, if_false]
            rw [dictLookup_append, h]
            simp [dictLookup, hk]
        rw [ih _ hnone]
        simp [firstSuccess, hs, hk]
    · simp only [hs, Bool.not_false, if_true]
      rw [ih d h]
      simp [firstSuccess, hs]

theorem lastSuccess_mem (k : String) (rows : List LRow) (r : LRow)
    (h : lastSuccess k rows = some r) :
    r ∈ rows ∧ r.project_slug = k ∧ rowSuccess r = true := by
  induction rows with
  | nil => simp [lastSuccess] at h
  | cons x rest ih =>
    simp only [lastSuccess] at h
    rcases hx : lastSuccess k rest with _ | y
    · rw [hx] at h
      by_cases hs : (rowSuccess x && x.project_slug == k) = true
      · rw [if_pos hs] at h
        obtain ⟨hs1, hs2⟩ := Bool.and_eq_true_iff.mp hs
        cases h
        exact ⟨List.mem_cons_self _ _, by simpa using hs2, hs1⟩
      · rw [if_neg hs] at h
        cases h
    · rw [hx] at h
      cases h
      obtain ⟨h1, h2, h3⟩ := ih hx
      exact ⟨List.mem_cons_of_mem _ h1, h2, h3⟩

theorem lastSuccess_none (k : String) (rows : List LRow)
    (h : lastSuccess k rows = none) :
    ∀ r ∈ rows, r.project_slug = k → rowSuccess r = false := by
  induction rows with
  | nil => intro r hr; simp at hr
  | cons x rest ih =>
    intro r hr hk
    simp only [lastSuccess] at h
    rcases hx : lastSuccess k rest with _ | y
    · rw [hx] at h
      rcases List.mem_cons.mp hr with h1 | h1
      · subst h1
        by_cases hs : rowSuccess r = true
        · simp [hs, hk] at h
        · simpa using hs
      · exact ih hx r h1 hk
    · rw [hx] at h
      cases h

theorem lastSuccess_isSome (k : String) (rows : List LRow)
    (h : ∃ r ∈ rows, r.project_slug = k ∧ rowSuccess r = true) :
    ∃ r, lastSuccess k rows = some r := by
  rcases hx : lastSuccess k rows with _ | r
  · obtain ⟨r, hr, hk, hs⟩ := h
    have := lastSuccess_none k rows hx r hr hk
    rw [hs] at this
    cases this
  · exact ⟨r, rfl⟩

theorem dictWF_insert (d : List (String × LRow)) (r : LRow) (h : dictWF d) :
    dictWF (dictInsert r.project_slug r d) := by
  induction d with
  | nil =>
    intro p hp
    simp [dictInsert] at hp
    subst hp; rfl
  | cons q rest ih =>
    intro p hp
    simp only [dictInsert] at hp
    by_cases hq : q.1 = r.project_slug
    · rw [if_pos (by simpa using hq)] at hp
      rcases List.mem_cons.mp hp with h1 | h1
      · subst h1; rfl
      · exact h p (List.mem_cons_of_mem _ h1)
    · rw [if_neg (by simpa using hq)] at hp
      rcases List.mem_cons.mp hp with h1 | h1
      · subst h1; exact h p (List.mem_cons_self _ _)
      · exact ih (fun q hq => h q (List.mem_cons_of_mem _ hq)) p h1

theorem dictWF_locFold (rows : List LRow) (d : List (String × LRow)) (h : dictWF d) :
    dictWF (locFold rows d) := by
  induction rows generalizing d with
  | nil => simpa [locFold]
  | cons r rest ih =>
    rw [locFold_cons]
    by_cases hs : rowSuccess r
    · simp only [hs, if_true]
      exact ih _ (dictWF_insert d r h)
    · simp only [hs, Bool.false_eq_true, if_false]
      exact ih d h

theorem dictWF_globFold (rows : List LRow) (d : List (String × LRow)) (h : dictWF d) :
    dictWF (globFold rows d) := by
  induction rows generalizing d with
  | nil => simpa [globFold]
  | cons r rest ih =>
    rw [globFold_cons]
    refine ih _ ?_
    by_cases hs : rowSuccess r
    · by_cases hk : dictHasKey d r.project_slug
      · simpa [hs, hk]
      · simp only [hs, hk, Bool.not_true, Bool.false_eq_true, if_false]
        intro p hp
        rcases List.mem_append.mp hp with h1 | h1
        · exact h p h1
        · simp at h1
          subst h1; rfl
    · simpa [hs]

theorem find?_values_eq_dictLookup (d : List (String × LRow)) (k : String)
    (h : dictWF d) :
    (d.map (fun p => p.2)).find? (fun r => r.project_slug == k) = dictLookup d k := by
  induction d with
  | nil => simp [dictLookup]
  | cons p rest ih =>
    have hp : p.2.project_slug = p.1 := h p (List.mem_cons_self _ _)
    by_cases hk : p.1 = k
    · rw [List.map_cons, List.find?_cons_of_pos _ (by simp [hp, hk])]
      simp [dictLookup, hk]
    · rw [List.map_cons, List.find?_cons_of_neg _ (by simp [hp, hk])]
      rw [ih (fun q hq => h q (List.mem_cons_of_mem _ hq))]
      simp [dictLookup, hk]

theorem lookupMerged_eq (localRows globalRows : List LRow) (k : String) :
    lookupMerged localRows globalRows k =
      match lastSuccess k localRows with
      | some r => some r
      | none => firstSuccess k globalRows := by
  have hwf : dictWF (globFold globalRows (locFold localRows [])) :=
    dictWF_globFold _ _ (dictWF_locFold _ [] (by intro p hp; simp at hp))
  unfold lookupMerged load_build_info
  rw [find?_values_eq_dictLookup _ _ hwf]
  rcases h : lastSuccess k localRows with _ | r
  · rw [globFold_lookup_none]
    rw [locFold_lookup, h]
    rfl
  · refine globFold_lookup_some _ _ _ _ ?_
    rw [locFold_lookup, h]

/-! ## Claim C2: local ledger precedence in the merged lookup -/

/-- Claim C2: for every project identity with a success row in the local
ledger, the merged lookup of `load_build_info` returns a local success row
for that identity, even when the global ledger also contains a row for it;
when no local success row exists, the lookup returns exactly the first
global success row (so a global row is used only in that case). -/
theorem C2_local_ledger_precedence (localRows globalRows : List LRow) (slug : String) :
    ((∃ r ∈ localRows, r.project_slug = slug ∧ rowSuccess r = true) →
      ∃ r ∈ localRows, r.project_slug = slug ∧ rowSuccess r = true ∧
        lookupMerged localRows globalRows slug = some r) ∧
    ((¬ ∃ r ∈ localRows, r.project_slug = slug ∧ rowSuccess r = true) →
      lookupMerged localRows globalRows slug = firstSuccess slug globalRows) := by
  constructor
  · intro h
    obtain ⟨r, hr⟩ := lastSuccess_isSome slug localRows h
    obtain ⟨hmem, hslug, hsucc⟩ := lastSuccess_mem slug localRows r hr
    exact ⟨r, hmem, hslug, hsucc, by rw [lookupMerged_eq, hr]⟩
  · intro h
    rcases hx : lastSuccess slug localRows with _ | r
    · rw [lookupMerged_eq, hx]
    · obtain ⟨hmem, hslug, hsucc⟩ := lastSuccess_mem slug localRows r hx
      exact absurd ⟨r, hmem, hslug, hsucc⟩ h

/-- Witness for C2 at a concrete pair of ledgers: the local success row
wins over a global row with the same slug. -/
theorem C2_local_ledger_precedence_witness :
    lookupMerged [⟨"p", some "success", "17", "3.9.8", "n/a", "n/a"⟩]
      [⟨"p", some "success", "8", "n/a", "8.9", "n/a"⟩] "p" =
      some ⟨"p", some "success", "17", "3.9.8", "n/a", "n/a"⟩ := by
  obtain ⟨r, hmem, hslug, hsucc, hl⟩ :=
    (C2_local_ledger_precedence [⟨"p", some "success", "17", "3.9.8", "n/a", "n/a"⟩]
      [⟨"p", some "success", "8", "n/a", "8.9", "n/a"⟩] "p").1
      ⟨⟨"p", some "success", "17", "3.9.8", "n/a", "n/a"⟩, by simp, rfl, by decide⟩
  have hr : r = ⟨"p", some "success", "17", "3.9.8", "n/a", "n/a"⟩ := by simpa using hmem
  rw [hr] at hl
  exact hl

/-! ## Claim C10: a missing status column counts as success -/

theorem rowSuccess_normStatus (r : LRow) : rowSuccess (normStatus r) = rowSuccess r := rfl

theorem dmap_nil : dmap [] = [] := rfl

theorem dmap_cons (p : String × LRow) (d : List (String × LRow)) :
    dmap (p :: d) = (p.1, normStatus p.2) :: dmap d := rfl

theorem dmap_insert (k : String) (v : LRow) (d : List (String × LRow)) :
    dictInsert k (normStatus v) (dmap d) = dmap (dictInsert k v d) := by
  induction d with
  | nil => simp [dictInsert, dmap]
  | cons p rest ih =>
    simp only [dmap] at ih ⊢
    by_cases hp : p.1 = k
    · simp [dictInsert, hp]
    · simp [dictInsert, hp, ih]

theorem dmap_lookup (d : List (String × LRow)) (k : String) :
    dictLookup (dmap d) k = (dictLookup d k).map normStatus := by
  induction d with
  | nil => simp [dictLookup, dmap]
  | cons p rest ih =>
    simp only [dmap] at ih ⊢
    by_cases hp : p.1 = k
    · simp [dictLookup, hp]
    · simp [dictLookup, hp, ih]

theorem dmap_hasKey (d : List (String × LRow)) (k : String) :
    dictHasKey (dmap d) k = dictHasKey d k := by
  rw [dictHasKey, dictHasKey, dmap_lookup]
  cases dictLookup d k <;> rfl

theorem locFold_norm (rows : List LRow) (d : List (String × LRow)) :
    locFold (rows.map normStatus) (dmap d) = dmap (locFold rows d) := by
  induction rows generalizing d with
  | nil => simp [locFold]
  | cons r rest ih =>
    rw [List.map_cons, locFold_cons, locFold_cons, rowSuccess_normStatus]
    by_cases hs : rowSuccess r
    · simp only [hs, if_true]
      have hslug : (normStatus r).project_slug = r.project_slug := rfl
      rw [hslug, dmap_insert]
      exact ih _
    · simp only [hs, Bool.false_eq_true, if_false]
      exact ih d

theorem globFold_norm (rows : List LRow) (d : List (String × LRow)) :
    globFold (rows.map normStatus) (dmap d) = dmap (globFold rows d) := by
  induction rows generalizing d with
  | nil => simp [globFold]
  | cons r rest ih =>
    rw [List.map_cons, globFold_cons, globFold_cons, rowSuccess_normStatus]
    by_cases hs : rowSuccess r
    · have hslug : (normStatus r).project_slug = r.project_slug := rfl
      rw [hslug, dmap_hasKey]
      by_cases hk : dictHasKey d r.project_slug
      · simp only [hs, hk, Bool.not_true, Bool.false_eq_true, if_false, if_true]
        exact ih d
      · simp only [hs, hk, Bool.not_true, Bool.false_eq_true, if_false]
        have happ : dmap d ++ [(r.project_slug, normStatus r)] =
            dmap (d ++ [(r.project_slug, r)]) := by
          simp [dmap]
        rw [happ]
        exact ih _
    · simp only [hs, Bool.not_false, if_true]
      exact ih d

theorem dmap_values (d : List (String × LRow)) :
    (dmap d).map (fun p => p.2) = (d.map (fun p => p.2)).map normStatus := by
  simp [dmap]

/-- Claim C10: a ledger row with no status field is treated exactly as a
success row, in both the local and the global loop of `load_build_info`:
normalizing every missing status to `"success"` commutes with the merge,
a status-less row normalizes to the same row with status `"success"`,
passes the success filter, and is included in the merge result from either
ledger. -/
theorem C10_missing_status_is_success :
    (∀ localRows globalRows : List LRow,
      load_build_info (localRows.map normStatus) (globalRows.map normStatus) =
        (load_build_info localRows globalRows).map normStatus) ∧
    (∀ r : LRow, r.status = none →
      normStatus r = { r with status := some "success" } ∧ rowSuccess r = true) ∧
    (∀ (r : LRow) (globalRows : List LRow), r.status = none →
      lookupMerged [r] globalRows r.project_slug = some r) ∧
    (∀ (r : LRow) (globalRows : List LRow), r.status = none →
      lookupMerged [] (r :: globalRows) r.project_slug = some r) := by
  refine ⟨?_, ?_, ?_, ?_⟩
  · intro localRows globalRows
    unfold load_build_info
    have h0 : locFold (localRows.map normStatus) (dmap []) = dmap (locFold localRows []) :=
      locFold_norm localRows []
    have h0' : (dmap [] : List (String × LRow)) = [] := rfl
    rw [h0'] at h0
    rw [h0, globFold_norm, dmap_values]
  · intro r h
    refine ⟨?_, ?_⟩
    · simp [normStatus, h]
    · simp [rowSuccess, h]
  · intro r globalRows h
    rw [lookupMerged_eq]
    have hs : rowSuccess r = true := by simp [rowSuccess, h]
    simp [lastSuccess, hs]
  · intro r globalRows h
    rw [lookupMerged_eq]
    have hs : rowSuccess r = true := by simp [rowSuccess, h]
    simp [lastSuccess, firstSuccess, hs]

/-- Witness for C10 at a concrete status-less row. -/
theorem C10_missing_status_is_success_witness :
    lookupMerged [⟨"p", none, "17", "3.9.8", "n/a", "n/a"⟩] [] "p" =
        some ⟨"p", none, "17", "3.9.8", "n/a", "n/a"⟩ ∧
      rowSuccess ⟨"p", none, "17", "3.9.8", "n/a", "n/a"⟩ = true :=
  ⟨C10_missing_status_is_success.2.2.1 ⟨"p", none, "17", "3.9.8", "n/a", "n/a"⟩ [] rfl,
    (C10_missing_status_is_success.2.1 ⟨"p", none, "17", "3.9.8", "n/a", "n/a"⟩ rfl).2⟩

/-! ## Trace lemmas for the candidate search -/

theorem triedList_nil : triedList [] = [] := rfl

theorem triedList_append (l₁ l₂ : List Ev) :
    triedList (l₁ ++ l₂) = triedList l₁ ++ triedList l₂ := by
  simp [triedList]

theorem triedList_build_with_maven (env : HostEnv) (a : Attempt) :
    triedList (build_with_maven env a).2 = [] := by
  unfold build_with_maven
  try dsimp only
  repeat' split
  all_goals simp [triedList]

theorem triedList_build_with_gradle (env : HostEnv) (a : Attempt) :
    triedList (build_with_gradle env a).2 = [] := by
  unfold build_with_gradle
  try dsimp only
  repeat' split
  all_goals simp [triedList]

theorem triedList_build_with_gradlew (env : HostEnv) (a : Attempt) :
    triedList (build_with_gradlew env a).2 = [] := by
  unfold build_with_gradlew
  try dsimp only
  repeat' split
  all_goals simp [triedList]

theorem triedList_build_project_with_attempt (env : HostEnv) (m : Bool) (a : Attempt) :
    triedList (build_project_with_attempt env m a).2.2 = [] := by
  unfold build_project_with_attempt
  by_cases hm : m = true
  · simp [hm, triedList]
  · simp only [hm, if_false]
    by_cases h1 : a.mvn.isSome
    · simpa [h1] using triedList_build_with_maven env a
    · by_cases h2 : a.gradle.isSome
      · simpa [h1, h2] using triedList_build_with_gradle env a
      · by_cases h3 : a.gradlew.isSome
        · simpa [h1, h2, h3] using triedList_build_with_gradlew env a
        · simp [h1, h2, h3, triedList]

theorem triedList_try_build_with_attempt (env : HostEnv) (m : Bool) (a : Attempt) :
    triedList (try_build_with_attempt env m a).2.2 = [] := by
  have h := triedList_build_project_with_attempt env m a
  rcases hb : build_project_with_attempt env m a with ⟨res, m', evs⟩
  rw [hb] at h
  simp only [try_build_with_attempt, hb]
  cases res <;> simp_all [triedList, triedList_append]

theorem triedList_build_inside_container (cenv : CEnv) (a : Attempt) :
    triedList (build_inside_container cenv a).2 = [] := by
  unfold build_inside_container
  try dsimp only
  repeat' split
  all_goals simp [triedList]

theorem triedList_execCandidate (env : HostEnv) (cenv : CEnv) (m : Bool)
    (uc : Bool) (a : Attempt) :
    triedList (execCandidate env cenv m uc a).2.2 = [a] := by
  cases uc
  · have h := triedList_try_build_with_attempt env m a
    rcases hb : try_build_with_attempt env m a with ⟨res, m', evs⟩
    rw [hb] at h
    simp only [execCandidate, hb, Bool.false_eq_true, if_false]
    simp only [triedList] at h ⊢
    simp [h]
  · have h := triedList_build_inside_container cenv a
    rcases hb : build_inside_container cenv a with ⟨res, evs⟩
    rw [hb] at h
    simp only [triedList] at h
    cases res <;> simp_all [execCandidate, triedList]

theorem build_project_with_attempt_failed_marker (env : HostEnv) (m : Bool) (a : Attempt)
    (h : (build_project_with_attempt env m a).1 = .failed) :
    (build_project_with_attempt env m a).2.1 = m := by
  cases m
  · unfold build_project_with_attempt at h ⊢
    simp only [Bool.false_eq_true, if_false] at h ⊢
    simp [h]
  · unfold build_project_with_attempt at h
    simp at h

theorem try_build_ok_false_marker (env : HostEnv) (m : Bool) (a : Attempt)
    (h : (try_build_with_attempt env m a).1 = .ok false) :
    (try_build_with_attempt env m a).2.1 = m := by
  have hm := build_project_with_attempt_failed_marker env m a
  rcases hb : build_project_with_attempt env m a with ⟨res, m', evs⟩
  rw [hb] at hm
  simp only [try_build_with_attempt, hb] at h ⊢
  cases res
  · simp at h
  · simp at h
  · simpa using hm rfl
  · simp at h

theorem execCandidate_ok_false_marker (env : HostEnv) (cenv : CEnv) (m : Bool)
    (uc : Bool) (a : Attempt)
    (h : (execCandidate env cenv m uc a).1 = .ok false) :
    (execCandidate env cenv m uc a).2.1 = m := by
  cases uc
  · simp only [execCandidate, Bool.false_eq_true, if_false] at h ⊢
    exact try_build_ok_false_marker env m a h
  · rcases hb : build_inside_container cenv a with ⟨res, evs⟩
    simp only [execCandidate, hb, if_true] at h ⊢
    cases res <;> simp_all

/-! ## Characterization of the attempt loop and the full search -/

theorem loopAttempts_prefix (env : HostEnv) (cenv : CEnv) (uc : Bool)
    (l : List Attempt) (m : Bool) :
    ∃ t, triedList (loopAttempts env cenv m uc l).2.2 ++ t = l := by
  induction l generalizing m with
  | nil => exact ⟨[], rfl⟩
  | cons a rest ih =>
    rcases hE : execCandidate env cenv m uc a with ⟨r, m', evs⟩
    have htr : triedList evs = [a] := by
      have h := triedList_execCandidate env cenv m uc a
      rw [hE] at h
      exact h
    rcases r with b | _
    · cases b
      · obtain ⟨t, ht⟩ := ih m'
        refine ⟨t, ?_⟩
        simp only [loopAttempts, hE]
        rw [triedList_append, htr]
        simp [ht]
      · refine ⟨rest, ?_⟩
        simp only [loopAttempts, hE]
        simp [htr]
    · refine ⟨rest, ?_⟩
      simp only [loopAttempts, hE]
      simp [htr]

theorem loopAttempts_exhaust (env : HostEnv) (cenv : CEnv) (uc : Bool)
    (l : List Attempt) (m : Bool)
    (h : (loopAttempts env cenv m uc l).1 = .ok false) :
    triedList (loopAttempts env cenv m uc l).2.2 = l ∧
      ∀ a ∈ l, (execCandidate env cenv m uc a).1 = .ok false := by
  induction l generalizing m with
  | nil => exact ⟨rfl, by intro a ha; cases ha⟩
  | cons a rest ih =>
    rcases hE : execCandidate env cenv m uc a with ⟨r, m', evs⟩
    have htr : triedList evs = [a] := by
      have h' := triedList_execCandidate env cenv m uc a
      rw [hE] at h'
      exact h'
    rcases r with b | _
    · cases b
      · have hmm : m' = m := by
          have h' := execCandidate_ok_false_marker env cenv m uc a (by rw [hE])
          rw [hE] at h'
          exact h'
        subst hmm
        simp only [loopAttempts, hE] at h ⊢
        obtain ⟨h1, h2⟩ := ih m' h
        refine ⟨?_, ?_⟩
        · rw [triedList_append, htr, h1]
          rfl
        · intro x hx
          rcases List.mem_cons.mp hx with h3 | h3
          · subst h3
            rw [hE]
          · exact h2 x h3
      · simp only [loopAttempts, hE] at h
        simp at h
    · simp only [loopAttempts, hE] at h
      simp at h

theorem tryOptThenDefaults_eq (env : HostEnv) (cenv : CEnv) (m : Bool) (uc : Bool)
    (o : Option Attempt) :
    (match tryOpt env cenv m uc o with
     | (.ok true, m2, e2) => (.ok true, m2, e2)
     | (.raised, m2, e2) => (.raised, m2, e2)
     | (.ok false, m2, e2) =>
       let r := loopAttempts env cenv m2 uc ATTEMPTS
       (r.1, r.2.1, e2 ++ r.2.2)) =
      loopAttempts env cenv m uc (o.toList ++ ATTEMPTS) := by
  rcases o with _ | a
  · simp [tryOpt]
  · rcases hE : execCandidate env cenv m uc a with ⟨r, m', e⟩
    have hTry : tryOpt env cenv m uc (some a) = (r, m', e) := hE
    rcases r with b | _
    · cases b <;> simp [hTry, loopAttempts, hE]
    · simp [hTry, loopAttempts, hE]

theorem searchLedgerThenDefaults_eq_loop (env : HostEnv) (cenv : CEnv) (m : Bool)
    (uc : Bool) (o1 o2 : Option Attempt) :
    searchLedgerThenDefaults env cenv m uc o1 o2 =
      loopAttempts env cenv m uc (o1.toList ++ o2.toList ++ ATTEMPTS) := by
  rcases o1 with _ | a1
  · have h := tryOptThenDefaults_eq env cenv m uc o2
    have hTry : tryOpt env cenv m uc none = (TRes.ok false, m, []) := rfl
    unfold searchLedgerThenDefaults
    rw [hTry]
    dsimp only
    rcases hI : tryOpt env cenv m uc o2 with ⟨r2, m2, e2⟩
    rw [hI] at h
    rcases r2 with b2 | _
    · cases b2
      · dsimp only at h ⊢
        simpa using h
      · dsimp only at h ⊢
        simpa using h
    · dsimp only at h ⊢
      simpa using h
  · rcases hE1 : execCandidate env cenv m uc a1 with ⟨r1, m1, e1⟩
    have hlist : ((some a1).toList ++ o2.toList ++ ATTEMPTS) =
        a1 :: (o2.toList ++ ATTEMPTS) := by simp
    rw [hlist]
    have hTry1 : tryOpt env cenv m uc (some a1) = (r1, m1, e1) := hE1
    rcases r1 with b1 | _
    · cases b1
      · -- the first ledger candidate fails: tail behaves like the loop
        have h := tryOptThenDefaults_eq env cenv m1 uc o2
        unfold searchLedgerThenDefaults
        rw [hTry1, loopAttempts, hE1]
        dsimp only
        rcases hI : tryOpt env cenv m1 uc o2 with ⟨r2, m2, e2⟩
        rw [hI] at h
        rcases r2 with b2 | _
        · cases b2
          · dsimp only at h ⊢
            rw [← h]
            simp
          · dsimp only at h ⊢
            rw [← h]
        · dsimp only at h ⊢
          rw [← h]
      · unfold searchLedgerThenDefaults
        rw [hTry1, loopAttempts, hE1]
    · unfold searchLedgerThenDefaults
      rw [hTry1, loopAttempts, hE1]

/-! ## Claim C1: strict precedence order of the candidate search -/

/-- Claim C1: for every project identity, the default build search
attempts candidates in the strict precedence order.  With an explicit
override candidate, exactly that candidate is attempted and the search
never falls through to other candidates.  Otherwise the local-ledger
success configuration is tried first, then the global-ledger one, then the
fixed default list of exactly nine candidates in its fixed order: the
dispatched candidates always form a prefix of that sequence, and terminal
failure (`False`) is returned only once every candidate of the full
sequence has been attempted and has failed.  This holds in both host and
container execution modes. -/
theorem C1_search_precedence_order (env : HostEnv) (cenv : CEnv)
    (localRows globalRows : List CsvRow) (slug : String) (marker : Bool)
    (useContainer : Bool) :
    ATTEMPTS.length = 9 ∧
    (∀ c : Attempt,
      triedList (build_project env cenv localRows globalRows slug marker false (some c)
        useContainer).2.2 = [c]) ∧
    (∃ t, triedList (build_project env cenv localRows globalRows slug marker false none
        useContainer).2.2 ++ t =
      (get_build_info_from_csv slug localRows).toList ++
        (get_build_info_from_csv slug globalRows).toList ++ ATTEMPTS) ∧
    ((build_project env cenv localRows globalRows slug marker false none useContainer).1 =
        .ok false →
      triedList (build_project env cenv localRows globalRows slug marker false none
          useContainer).2.2 =
        (get_build_info_from_csv slug localRows).toList ++
          (get_build_info_from_csv slug globalRows).toList ++ ATTEMPTS ∧
      ∀ a ∈ (get_build_info_from_csv slug localRows).toList ++
          (get_build_info_from_csv slug globalRows).toList ++ ATTEMPTS,
        (execCandidate env cenv marker useContainer a).1 = .ok false) := by
  have hbp : build_project env cenv localRows globalRows slug marker false none useContainer =
      loopAttempts env cenv marker useContainer
        ((get_build_info_from_csv slug localRows).toList ++
          (get_build_info_from_csv slug globalRows).toList ++ ATTEMPTS) :=
    searchLedgerThenDefaults_eq_loop env cenv marker useContainer
      (get_build_info_from_csv slug localRows) (get_build_info_from_csv slug globalRows)
  refine ⟨rfl, ?_, ?_, ?_⟩
  · intro c
    exact triedList_execCandidate env cenv marker useContainer c
  · rw [hbp]
    exact loopAttempts_prefix env cenv useContainer _ marker
  · intro h
    rw [hbp] at h ⊢
    exact loopAttempts_exhaust env cenv useContainer _ marker h

/-- Witness for C1: with empty ledgers and a host environment where no
toolchain is installed, the search attempts all nine default candidates in
order and only then returns failure. -/
theorem C1_search_precedence_order_witness :
    triedList (build_project envEmpty cenvOk [] [] "p" false false none false).2.2 =
        ATTEMPTS ∧
      (build_project envEmpty cenvOk [] [] "p" false false none false).1 = .ok false := by
  have h := (C1_search_precedence_order envEmpty cenvOk [] [] "p" false false).2.2.2
    (by decide)
  exact ⟨by simpa using h.1, by decide⟩

/-! ## Claim C3: idempotency marker (corrected: host mode only) -/

/-- Counterexample to C3 as stated: with the per-project idempotency
marker present, the sandboxed executor still performs sandbox work (a
container is created), its result is decided by the build command rather
than by the marker, and a repeat invocation does exactly the same sandbox
work again — the marker is not even an input of
`build_inside_container`. -/
theorem C3_counterexample_sandbox_mode_ignores_marker :
    Ev.sandboxCreated ∈ (execCandidate envInstalled cenvOk true true mvnAttempt).2.2 ∧
      (execCandidate envInstalled cenvOk true true mvnAttempt).1 = .ok true ∧
      (execCandidate envInstalled cenvOk true true mvnAttempt).2.2 =
        (execCandidate envInstalled cenvOk false true mvnAttempt).2.2 := by
  decide

/-- Claim C3 amended: in host-direct mode the executor is idempotent: with
the marker present it returns `ALREADY_BUILT` immediately, with no events
(no build work, no ledger write) and unchanged state, so a second
invocation behaves identically; and a successful build sets the marker, so
at most one successful build is ever materialized per project in host
mode.  The sandboxed executor ignores the marker entirely (see the
counterexample). -/
theorem C3_amended_host_idempotency (env : HostEnv) (a : Attempt) (m : Bool) :
    build_project_with_attempt env true a = (.alreadyBuilt, true, []) ∧
    try_build_with_attempt env true a = (.ok true, true, []) ∧
    ((build_project_with_attempt env m a).1 = .newlyBuilt →
      (build_project_with_attempt env m a).2.1 = true) := by
  refine ⟨rfl, rfl, ?_⟩
  intro h
  cases m
  · unfold build_project_with_attempt at h ⊢
    simp only [Bool.false_eq_true, if_false] at h ⊢
    simp [h]
  · unfold build_project_with_attempt at h ⊢
    simp at h ⊢

/-- Witness for the amended C3 at a concrete successful build: the marker
is set afterwards, so the next invocation short-circuits. -/
theorem C3_amended_host_idempotency_witness :
    (build_project_with_attempt envBuildsOk false mvnAttempt).2.1 = true :=
  (C3_amended_host_idempotency envBuildsOk mvnAttempt false).2.2 (by decide)

/-! ## Claim C4: selector-count validation (corrected: ledger rows) -/

/-- Counterexample to C4 as stated: a ledger row with both a Maven and a
Gradle version is returned by `get_build_info_from_csv` as a candidate
with two build-tool selectors, and the executor runs a Maven build for it
instead of rejecting it. -/
theorem C4_counterexample_ledger_row_two_selectors :
    get_build_info_from_csv "p" [⟨"p", "success", "17", "3.9.8", "8.9", "n/a"⟩] =
        some ⟨some "17", some "3.9.8", some "8.9", none⟩ ∧
      selectorCount ⟨some "17", some "3.9.8", some "8.9", none⟩ = 2 ∧
      Ev.invokedBuild "mvn" ∈
        (build_project_with_attempt envInstalled false
          ⟨some "17", some "3.9.8", some "8.9", none⟩).2.2 := by
  decide

theorem get_build_info_wellFormed (slug : String) (rows : List CsvRow) (a : Attempt)
    (h : get_build_info_from_csv slug rows = some a) : attemptWellFormed a = true := by
  induction rows with
  | nil => simp [get_build_info_from_csv] at h
  | cons row rest ih =>
    unfold get_build_info_from_csv at h
    by_cases h1 : (row.project_slug == slug && row.status == "success") = true
    · rw [if_pos h1] at h
      by_cases h2 : attemptWellFormed (rowToAttempt row) = true
      · rw [if_pos h2] at h
        cases h
        exact h2
      · rw [if_neg h2] at h
        exact ih h
    · rw [if_neg h1] at h
      exact ih h

theorem wellFormed_selectorCount (a : Attempt) (h : attemptWellFormed a = true) :
    1 ≤ selectorCount a ∧ a.jdk.isSome = true := by
  rcases a with ⟨j, mv, gr, gw⟩
  cases mv <;> cases gr <;> cases gw <;>
    simp_all [attemptWellFormed, selectorCount]

/-- Claim C4 amended: a user-override candidate is rejected unless it has
exactly one build-tool selector (and a JDK); a ledger row yields a
candidate only if it has a JDK and at least one selector, so
zero-selector candidates never reach the executor from either origin, and
a zero-selector candidate handed to the executor raises `ValueError`
before any build.  But a ledger row with two or more selectors is not
rejected: it is returned and executed (see the counterexample). -/
theorem C4_amended_selector_validation (env : HostEnv) (jdk mvn gradle : Option String)
    (gw : Bool) (slug : String) (rows : List CsvRow) (a : Attempt) :
    (∀ a2 : Attempt, validate_and_create_custom_attempt env jdk mvn gradle gw = .ok a2 →
      selectorCount a2 = 1 ∧ a2.jdk.isSome = true) ∧
    (get_build_info_from_csv slug rows = some a →
      1 ≤ selectorCount a ∧ a.jdk.isSome = true) ∧
    (selectorCount a = 0 →
      build_project_with_attempt env false a = (.pyError, false, [])) := by
  refine ⟨?_, ?_, ?_⟩
  · intro a2 h
    unfold validate_and_create_custom_attempt at h
    rcases jdk with _ | j
    · simp at h
    · dsimp only at h
      by_cases h1 : (j == "") = true
      · rw [if_pos h1] at h
        simp at h
      · rw [if_neg h1] at h
        by_cases h2 : (tableGet env.jdks j).isNone = true
        · rw [if_pos h2] at h
          simp at h
        · rw [if_neg h2] at h
          rcases hmv : validateTool env.mvns mvn with e | mv <;> rw [hmv] at h
          · simp at h
          · rcases hgr : validateTool env.gradles gradle with e | gr <;> rw [hgr] at h
            · simp at h
            · dsimp only at h
              by_cases hc0 :
                  (selectorCount ⟨some j, mv, gr, if gw then some 1 else none⟩ == 0) = true
              · rw [if_pos hc0] at h
                simp at h
              · rw [if_neg hc0] at h
                by_cases hc1 :
                    1 < selectorCount ⟨some j, mv, gr, if gw then some 1 else none⟩
                · rw [if_pos hc1] at h
                  simp at h
                · rw [if_neg hc1] at h
                  injection h with h3
                  subst h3
                  simp only [beq_iff_eq] at hc0
                  exact ⟨by omega, rfl⟩
  · intro h
    exact wellFormed_selectorCount a (get_build_info_wellFormed slug rows a h)
  · intro h
    rcases a with ⟨j, mv, gr, gw2⟩
    cases mv <;> cases gr <;> cases gw2 <;>
      first
      | rfl
      | simp [selectorCount] at h

/-- Witness for the amended C4: a zero-selector candidate raises before
any build work. -/
theorem C4_amended_selector_validation_witness :
    build_project_with_attempt envInstalled false ⟨some "17", none, none, none⟩ =
      (.pyError, false, []) :=
  (C4_amended_selector_validation envInstalled none none none false "p" []
    ⟨some "17", none, none, none⟩).2.2 (by decide)

/-! ## Claim C5: toolchain resolution failure causes (corrected) -/

/-- Counterexample to C5 as stated: for a Gradle candidate whose install
root exists but whose `bin/gradle` executable is absent, resolution fails
in the sense of the spec, yet the code invokes the build command anyway
instead of returning a pre-invocation `Failed`. -/
theorem C5_counterexample_gradle_executable_unchecked :
    specToolchainMissing envGradleNoBin ⟨some "17", none, some "8.9", none⟩ = true ∧
      (build_with_gradle envGradleNoBin ⟨some "17", none, some "8.9", none⟩).1 =
        .buildFailed ∧
      Ev.invokedBuild "gradle" ∈
        (build_with_gradle envGradleNoBin ⟨some "17", none, some "8.9", none⟩).2 := by
  decide

theorem maven_resolution_guard (env : HostEnv) (j m : String)
    (h : specToolchainMissing env ⟨some j, some m, none, none⟩ = true) :
    resolutionFailure (build_with_maven env ⟨some j, some m, none, none⟩).1 = true ∧
      (build_with_maven env ⟨some j, some m, none, none⟩).2 = [] := by
  unfold specToolchainMissing specToolMissing at h
  unfold build_with_maven
  dsimp only at h ⊢
  rcases hj : tableGet env.jdks j with _ | jp
  · simp [pyFalsy, resolutionFailure]
  · rcases hm2 : tableGet env.mvns m with _ | mp
    · simp [pyFalsy, resolutionFailure]
    · by_cases hjp : (jp == "") = true
      · simp [pyFalsy, hjp, resolutionFailure]
      · by_cases hmp : (mp == "") = true
        · simp [pyFalsy, hjp, hmp, resolutionFailure]
        · by_cases e1 : env.pathExists jp = true <;>
          by_cases e2 : env.pathExists mp = true <;>
          by_cases e3 : env.pathExists (pathJoin jp "bin/java") = true <;>
          by_cases e4 : env.pathExists (pathJoin mp "bin/mvn") = true <;>
            simp_all [pyFalsy, resolutionFailure]

theorem gradle_resolution_guard (env : HostEnv) (j g : String)
    (h : (specToolMissing12 env env.jdks j || specToolMissing12 env env.gradles g) = true) :
    resolutionFailure (build_with_gradle env ⟨some j, none, some g, none⟩).1 = true ∧
      (build_with_gradle env ⟨some j, none, some g, none⟩).2 = [] := by
  unfold specToolMissing12 at h
  unfold build_with_gradle
  dsimp only at h ⊢
  rcases hj : tableGet env.jdks j with _ | jp
  · simp [pyFalsy, resolutionFailure]
  · rcases hg : tableGet env.gradles g with _ | gp
    · simp [pyFalsy, resolutionFailure]
    · by_cases hjp : (jp == "") = true
      · simp [pyFalsy, hjp, resolutionFailure]
      · by_cases hgp : (gp == "") = true
        · simp [pyFalsy, hjp, hgp, resolutionFailure]
        · by_cases e1 : env.pathExists jp = true <;>
          by_cases e2 : env.pathExists gp = true <;>
            simp_all [pyFalsy, resolutionFailure]

theorem gradlew_resolution_guard (env : HostEnv) (j : String)
    (hs : env.gradlewScriptExists = true) (hc : env.chmodOk = true)
    (h : specToolMissing12 env env.jdks j = true) :
    (build_with_gradlew env ⟨some j, none, none, some 1⟩).1 = .jdkNotFound ∧
      (build_with_gradlew env ⟨some j, none, none, some 1⟩).2 = [] := by
  unfold specToolMissing12 at h
  unfold build_with_gradlew
  dsimp only
  rcases hj : tableGet env.jdks j with _ | jp
  · simp [hs, hc]
  · by_cases e1 : env.pathExists jp = true <;> simp_all [hs, hc]

/-- Claim C5 amended: for Maven candidates the code checks all three
failure causes of the spec (for both the JDK and Maven) and fails before
invoking the build; for Gradle candidates only the first two causes
(version absent from the table, install path absent from disk) are checked
— an absent executable is not detected before the build command is
invoked (see the counterexample); for gradlew candidates the JDK check
covers only the first two causes and conflates them into a single failure
report; every such resolution failure is surfaced to the caller as
`FAILED`.  No sandbox is involved in these host-mode paths. -/
theorem C5_amended_resolution_checks (env : HostEnv) (j m g : String) :
    (specToolchainMissing env ⟨some j, some m, none, none⟩ = true →
      resolutionFailure (build_with_maven env ⟨some j, some m, none, none⟩).1 = true ∧
      (build_with_maven env ⟨some j, some m, none, none⟩).2 = []) ∧
    ((specToolMissing12 env env.jdks j || specToolMissing12 env env.gradles g) = true →
      resolutionFailure (build_with_gradle env ⟨some j, none, some g, none⟩).1 = true ∧
      (build_with_gradle env ⟨some j, none, some g, none⟩).2 = []) ∧
    (env.gradlewScriptExists = true → env.chmodOk = true →
      specToolMissing12 env env.jdks j = true →
      (build_with_gradlew env ⟨some j, none, none, some 1⟩).1 = .jdkNotFound ∧
      (build_with_gradlew env ⟨some j, none, none, some 1⟩).2 = []) ∧
    (∀ r : HostRes, resolutionFailure r = true → toBRes r = .failed) :=
  ⟨fun h => maven_resolution_guard env j m h,
    fun h => gradle_resolution_guard env j g h,
    fun hs hc h => gradlew_resolution_guard env j hs hc h,
    fun r h => by cases r <;> simp_all [resolutionFailure, toBRes]⟩

/-- Witness for the amended C5: with empty toolchain tables, a Maven
candidate fails resolution before any invocation. -/
theorem C5_amended_resolution_checks_witness :
    resolutionFailure (build_with_maven envEmpty ⟨some "17", some "3.9.8", none, none⟩).1 =
        true ∧
      (build_with_maven envEmpty ⟨some "17", some "3.9.8", none, none⟩).2 = [] :=
  (C5_amended_resolution_checks envEmpty "17" "3.9.8" "8.9").1 (by decide)

/-! ## Claim C9: ledger persistence of attempt results (corrected) -/

/-- Counterexample to C9 as stated: a successful containerized build
attempt returns without persisting anything — `build_inside_container`
emits no ledger write (no local CSV row, no build-info marker). -/
theorem C9_counterexample_container_records_nothing :
    (build_inside_container cenvOk mvnAttempt).1 = .ok true ∧
      (build_inside_container cenvOk mvnAttempt).2.all (fun e => !isLedgerEv e) = true := by
  decide

theorem build_with_maven_marker (env : HostEnv) (a : Attempt)
    (h : (build_with_maven env a).1 = .builtOk) :
    Ev.markerSaved ∈ (build_with_maven env a).2 := by
  unfold build_with_maven at h ⊢
  try dsimp only at h ⊢
  repeat' split at h <;> try dsimp only
  all_goals simp_all

theorem build_with_gradle_marker (env : HostEnv) (a : Attempt)
    (h : (build_with_gradle env a).1 = .builtOk) :
    Ev.markerSaved ∈ (build_with_gradle env a).2 := by
  unfold build_with_gradle at h ⊢
  try dsimp only at h ⊢
  repeat' split at h <;> try dsimp only
  all_goals simp_all

theorem build_with_gradlew_marker (env : HostEnv) (a : Attempt)
    (h : (build_with_gradlew env a).1 = .builtOk) :
    Ev.markerSaved ∈ (build_with_gradlew env a).2 := by
  unfold build_with_gradlew at h ⊢
  try dsimp only at h ⊢
  repeat' split at h <;> try dsimp only
  all_goals simp_all

/-- Claim C9 amended: in host-direct mode a newly successful attempt
appends a success row to the local ledger as the last action before the
executor returns `True` (and the build itself saved the build-info
marker), and a failed attempt appends a failure row as the last action
before the executor returns `False` and the search moves on.  In
container mode nothing is ever recorded (see the counterexample). -/
theorem C9_amended_ledger_rows (env : HostEnv) (m : Bool) (a : Attempt) (cenv : CEnv) :
    ((build_project_with_attempt env m a).1 = .newlyBuilt →
      (try_build_with_attempt env m a).2.2.getLast? = some (.localRow true) ∧
      (try_build_with_attempt env m a).1 = .ok true) ∧
    ((build_project_with_attempt env m a).1 = .failed →
      (try_build_with_attempt env m a).2.2.getLast? = some (.localRow false) ∧
      (try_build_with_attempt env m a).1 = .ok false) ∧
    ((build_project_with_attempt env m a).1 = .newlyBuilt →
      Ev.markerSaved ∈ (build_project_with_attempt env m a).2.2) ∧
    (∀ e ∈ (build_inside_container cenv a).2, isLedgerEv e = false) := by
  refine ⟨?_, ?_, ?_, ?_⟩
  · intro h
    rcases hb : build_project_with_attempt env m a with ⟨res, m2, evs⟩
    rw [hb] at h
    cases res <;> simp_all [try_build_with_attempt, hb, List.getLast?_append_cons]
  · intro h
    rcases hb : build_project_with_attempt env m a with ⟨res, m2, evs⟩
    rw [hb] at h
    cases res <;> simp_all [try_build_with_attempt, hb, List.getLast?_append_cons]
  · intro h
    unfold build_project_with_attempt at h ⊢
    cases m
    · simp only [Bool.false_eq_true, if_false] at h ⊢
      by_cases h1 : a.mvn.isSome
      · simp only [h1, if_true] at h ⊢
        refine build_with_maven_marker env a ?_
        rcases hr : (build_with_maven env a).1 <;> simp_all [toBRes]
      · by_cases h2 : a.gradle.isSome
        · simp only [h1, h2, Bool.false_eq_true, if_false, if_true] at h ⊢
          refine build_with_gradle_marker env a ?_
          rcases hr : (build_with_gradle env a).1 <;> simp_all [toBRes]
        · by_cases h3 : a.gradlew.isSome
          · simp only [h1, h2, h3, Bool.false_eq_true, if_false, if_true] at h ⊢
            refine build_with_gradlew_marker env a ?_
            rcases hr : (build_with_gradlew env a).1 <;> simp_all [toBRes]
          · simp [h1, h2, h3, toBRes] at h
    · simp at h
  · intro e he
    unfold build_inside_container at he
    try dsimp only at he
    repeat' split at he
    all_goals simp_all [isLedgerEv]
    all_goals rcases he with rfl | rfl | rfl <;> rfl

/-- Witness for the amended C9 at a concrete failing attempt: a failure
row is the last recorded action. -/
theorem C9_amended_ledger_rows_witness :
    (try_build_with_attempt envInstalled false mvnAttempt).2.2.getLast? =
      some (Ev.localRow false) :=
  ((C9_amended_ledger_rows envInstalled false mvnAttempt cenvOk).2.1 (by decide)).1

/-! ## Claim C6: unconditional sandbox teardown -/

/-- Claim C6: in both sandboxed runs (build attempt and pipeline), once the
container exists its removal is attempted on every exit path — whatever
the body does, including raising at any stage — and a failure of the
removal step itself is swallowed: it never changes the run's result. -/
theorem C6_sandbox_teardown_on_all_paths (cenv : CEnv) (a : Attempt) (penv : PEnv)
    (slug : String) :
    (cenv.imageAvailable = true →
      Ev.sandboxRemoveAttempted ∈ (build_inside_container cenv a).2 ∧
      ∀ b : Bool,
        (build_inside_container { cenv with removeRaises := b } a).1 =
          (build_inside_container cenv a).1) ∧
    (penv.imageAvailable = true →
      PEv.removeAttempted ∈ (create_codeql_database_in_container penv slug).2 ∧
      ∀ b : Bool,
        (create_codeql_database_in_container { penv with removeRaises := b } slug).1 =
          (create_codeql_database_in_container penv slug).1) := by
  constructor
  · intro h
    constructor
    · unfold build_inside_container
      simp [h]
    · intro b
      unfold build_inside_container
      simp [h, pyFinally, pySwallow]
  · intro h
    constructor
    · unfold create_codeql_database_in_container
      simp [h]
    · intro b
      unfold create_codeql_database_in_container
      simp [h, pyFinally, pySwallow]

/-- Witness for C6: removal is attempted in a concrete successful build
attempt and a concrete successful pipeline run. -/
theorem C6_sandbox_teardown_on_all_paths_witness :
    Ev.sandboxRemoveAttempted ∈ (build_inside_container cenvOk mvnAttempt).2 ∧
      PEv.removeAttempted ∈ (create_codeql_database_in_container penvAllOk "p").2 :=
  ⟨((C6_sandbox_teardown_on_all_paths cenvOk mvnAttempt penvAllOk "p").1 rfl).1,
    ((C6_sandbox_teardown_on_all_paths cenvOk mvnAttempt penvAllOk "p").2 rfl).1⟩

/-! ## Claim C7: fixed pipeline stage ordering -/

/-- Claim C7: in every pipeline run the stages keep their fixed order: a
patch command runs only after the fetch command succeeded (and after it in
the trace); the build command runs only once patching is resolved — the
patch applied with exit zero when a patch file exists, or skipped without
error when none exists; extraction happens only when the build exited
zero and after it; and any stage failure leaves all later stages out of
the trace. -/
theorem C7_pipeline_stage_ordering (penv : PEnv) (slug : String) :
    (hasStage (create_codeql_database_in_container penv slug).2 .patch = true →
      penv.fetchExit = 0 ∧
      hasStage (create_codeql_database_in_container penv slug).2 .fetch = true ∧
      stageIdx (create_codeql_database_in_container penv slug).2 .fetch <
        stageIdx (create_codeql_database_in_container penv slug).2 .patch) ∧
    (hasStage (create_codeql_database_in_container penv slug).2 .build = true →
      penv.fetchExit = 0 ∧
      (penv.patchFileOnHost = true →
        penv.patchExit = 0 ∧
        hasStage (create_codeql_database_in_container penv slug).2 .patch = true ∧
        stageIdx (create_codeql_database_in_container penv slug).2 .patch <
          stageIdx (create_codeql_database_in_container penv slug).2 .build) ∧
      (penv.patchFileOnHost = false →
        hasStage (create_codeql_database_in_container penv slug).2 .patch = false)) ∧
    (PEv.extracted ∈ (create_codeql_database_in_container penv slug).2 →
      penv.buildExit = 0 ∧
      hasStage (create_codeql_database_in_container penv slug).2 .build = true ∧
      stageIdx (create_codeql_database_in_container penv slug).2 .build <
        evIdx (create_codeql_database_in_container penv slug).2 .extracted) ∧
    (penv.fetchExit ≠ 0 →
      hasStage (create_codeql_database_in_container penv slug).2 .patch = false ∧
      hasStage (create_codeql_database_in_container penv slug).2 .build = false ∧
      PEv.extracted ∉ (create_codeql_database_in_container penv slug).2) ∧
    (penv.patchFileOnHost = true → penv.patchExit ≠ 0 →
      hasStage (create_codeql_database_in_container penv slug).2 .build = false ∧
      PEv.extracted ∉ (create_codeql_database_in_container penv slug).2) ∧
    (penv.buildExit ≠ 0 →
      PEv.extracted ∉ (create_codeql_database_in_container penv slug).2) ∧
    (penv.imageAvailable = true → penv.startRaises = false → penv.repoInfo ≠ none →
      penv.fetchExit = 0 → penv.patchFileOnHost = false →
      hasStage (create_codeql_database_in_container penv slug).2 .build = true ∧
      hasStage (create_codeql_database_in_container penv slug).2 .patch = false) := by
  rcases penv with ⟨ia, sr, ri, fe, pf, pe, cc, be, er, rr⟩
  cases ia <;> cases sr <;> rcases ri with _ | ⟨url, commit⟩ <;>
    by_cases hfe : fe = 0 <;> cases pf <;> by_cases hpe : pe = 0 <;>
    by_cases hbe : be = 0 <;>
    simp_all [create_codeql_database_in_container, pyFinally, pySwallow,
      containerRemoveStep, hasStage, stageIdx, evIdx, List.findIdx_cons,
      Bool.cond_eq_ite, beq_iff_eq]

/-- Witness for C7 at a concrete all-stages-succeed run with a patch file:
the fetch command precedes the patch command in the trace. -/
theorem C7_pipeline_stage_ordering_witness :
    stageIdx (create_codeql_database_in_container penvAllOk "p").2 .fetch <
      stageIdx (create_codeql_database_in_container penvAllOk "p").2 .patch :=
  ((C7_pipeline_stage_ordering penvAllOk "p").1 (by decide)).2.2

/-! ## Claim C8: the fetch stage (corrected: reset before branch fetch) -/

/-- Counterexample to C8 as stated: the claim has the hard-reset happening
after both fetches ("fetches the pinned revision ... plus the branch tips,
and then hard-resets"), but in the executed command sequence the
`git reset --hard FETCH_HEAD` comes immediately after the pinned-revision
fetch and before the branch-tip fetch.  The first conjunct pins the
modelled command string to the source's exact shell text. -/
theorem C8_counterexample_reset_precedes_branch_fetch :
    fetchCmd "https://host/repo.git" "abc123" =
        "rm -rf repo && mkdir -p repo && cd repo && git init && git remote add origin \x27https://host/repo.git\x27 && git fetch --no-tags --depth 1 origin abc123 && git reset --hard FETCH_HEAD && git fetch --no-tags --depth 1 origin \x27+refs/heads/*:refs/remotes/origin/*\x27" ∧
      PEv.exec .fetch (fetchCmd "https://host/repo.git" "abc123") ∈
        (create_codeql_database_in_container penvAllOk "p").2 ∧
      (fetchSteps "https://host/repo.git" "abc123").indexOf GitStep.resetHardFetchHead <
        (fetchSteps "https://host/repo.git" "abc123").indexOf
          (GitStep.shallowFetch branchRefspec) ∧
      ¬((fetchSteps "https://host/repo.git" "abc123").indexOf
            (GitStep.shallowFetch branchRefspec) <
          (fetchSteps "https://host/repo.git" "abc123").indexOf
            GitStep.resetHardFetchHead) :=
  ⟨rfl, by decide, by decide, by decide⟩

/-- Claim C8 amended: the fetch stage first re-initializes a fresh
workspace (remove, recreate, `git init`, add the origin remote), then
shallow-fetches (depth 1, no tags) exactly the pinned revision,
hard-resets the working tree to it, and only then shallow-fetches the full
set of branch tips; any non-zero exit of the fetch command is fatal for
the run (`FetchFailed`), with no later stage running and no fallback. -/
theorem C8_amended_fetch_stage (url commit : String) (penv : PEnv) (slug : String) :
    (fetchSteps url commit).take 5 =
      [.rmRfRepo, .mkdirRepo, .cdRepo, .gitInit, .remoteAddOrigin url] ∧
    (fetchSteps url commit).filter isShallowFetchStep =
      [.shallowFetch commit, .shallowFetch branchRefspec] ∧
    (fetchSteps url commit).get? 5 = some (.shallowFetch commit) ∧
    (fetchSteps url commit).get? 6 = some .resetHardFetchHead ∧
    (fetchSteps url commit).get? 7 = some (.shallowFetch branchRefspec) ∧
    (penv.fetchExit ≠ 0 →
      hasStage (create_codeql_database_in_container penv slug).2 .patch = false ∧
      hasStage (create_codeql_database_in_container penv slug).2 .build = false ∧
      PEv.extracted ∉ (create_codeql_database_in_container penv slug).2) ∧
    (penv.imageAvailable = true → penv.startRaises = false →
      penv.repoInfo = some (url, commit) → penv.fetchExit ≠ 0 →
      (create_codeql_database_in_container penv slug).1 = .error .fetchFailed ∧
      PEv.exec .fetch (fetchCmd url commit) ∈
        (create_codeql_database_in_container penv slug).2) := by
  refine ⟨rfl, rfl, rfl, rfl, rfl, ?_, ?_⟩
  · intro h
    rcases penv with ⟨ia, sr, ri, fe, pf, pe, cc, be, er, rr⟩
    cases ia <;> cases sr <;> rcases ri with _ | ⟨u2, c2⟩ <;> cases pf <;>
      simp_all [create_codeql_database_in_container, pyFinally, pySwallow,
        containerRemoveStep, hasStage, stageIdx]
  · intro h1 h2 h3 h4
    rcases penv with ⟨ia, sr, ri, fe, pf, pe, cc, be, er, rr⟩
    cases pf <;>
      simp_all [create_codeql_database_in_container, pyFinally, pySwallow,
        containerRemoveStep, hasStage]

/-- Witness for the amended C8: a concrete run whose fetch exits non-zero
fails with `FetchFailed`. -/
theorem C8_amended_fetch_stage_witness :
    (create_codeql_database_in_container penvFetchFail "p").1 = .error .fetchFailed :=
  ((C8_amended_fetch_stage "https://host/repo.git" "abc123" penvFetchFail "p").2.2.2.2.2.2
    rfl rfl rfl (by decide)).1

end Iris
